import Mathlib

set_option maxRecDepth 100000

/-!
Shallow embedding of the `average` Go package (src/slidingwindow.go).

Durations (`time.Duration`) are int64 nanoseconds, embedded as `Int`;
Go integer division and remainder on them truncate toward zero, embedded
as `Int.tdiv` / `Int.tmod`.  The `samples` slice holds `float64` values;
every sample value appearing in the repository's fixtures is a small
integer, on which binary64 addition is exact, so buckets are embedded as
exact rationals (`ℚ`).  The one genuinely rounding operation, the
`float64` division performed by `Average`, is embedded by composing the
exact rational quotient with `f64ofRat`, the round-to-nearest-even
binary64 rounding function defined below.

The cursor `pos` is a Go `int` that is never negative in the source (it
starts at 0, the shifter wraps it into `[0, len(samples))`, and `Reset`
writes 0), so it is embedded as `Nat`.
-/

/-- Round-to-nearest, ties-to-even, of a rational to an integer. -/
def rnEven (x : ℚ) : Int :=
  if x - ⌊x⌋ < 1/2 then ⌊x⌋
  else if (1/2 : ℚ) < x - ⌊x⌋ then ⌊x⌋ + 1
  else if ⌊x⌋ % 2 = 0 then ⌊x⌋ else ⌊x⌋ + 1

/-- Fuel-driven search for the binary exponent of `q ≥ 1`:
returns `e` with `2^e ≤ q < 2^(e+1)` whenever the fuel suffices. -/
def expUp : Nat → ℚ → Int
  | 0, _ => 0
  | n+1, q => if q < 2 then 0 else expUp n (q / 2) + 1

/-- Fuel-driven search for the binary exponent of `0 < q < 1`. -/
def expDown : Nat → ℚ → Int
  | 0, _ => 0
  | n+1, q => if 1 ≤ q then 0 else expDown n (q * 2) - 1

/-- Binary exponent `⌊log₂ q⌋` of a positive rational; the fuel of 64
covers every magnitude in `[2^(-64), 2^64)`, far beyond the values this
development evaluates. -/
def floorLog2 (q : ℚ) : Int :=
  if 1 ≤ q then expUp 64 q else expDown 64 q

/-- `2 ^ z` as a rational, for a (possibly negative) integer exponent. -/
def scalePow (z : Int) : ℚ :=
  if 0 ≤ z then (2 : ℚ) ^ z.toNat else ((2 : ℚ) ^ (-z).toNat)⁻¹

/-- The binary64 (IEEE-754 double) value nearest to the rational `q`:
round the significand to 53 bits, ties to even.  Exponent overflow and
subnormals are not modelled; on the normal range this is exactly the
value Go computes for a correctly rounded operation and exactly the
value a decimal floating-point literal denotes. -/
def f64ofRat (q : ℚ) : ℚ :=
  if q = 0 then 0
  else if 0 < q then
    rnEven (q * scalePow (52 - floorLog2 q)) * scalePow (floorLog2 q - 52)
  else
    -(rnEven (-q * scalePow (52 - floorLog2 (-q))) * scalePow (floorLog2 (-q) - 52))

/-- The `SlidingWindow` struct of src/slidingwindow.go.  The
synchronisation fields (`stopOnce`, `stopC`, the embedded `RWMutex`)
carry no bucket data and are not part of the sequential state. -/
structure SlidingWindow where
  window : Int
  granularity : Int
  samples : List ℚ
  counts : List Int
  pos : Nat
  size : Int
deriving DecidableEq, Repr

/-- `New` (src/slidingwindow.go:36-57).  Errors are the exact
`errors.New` message strings of the source.  `Except.ok none` marks the
state in which validation passed but `make([]float64, n)` is reached
with a negative length `n`, where the Go runtime panics instead of
returning an error. -/
def SlidingWindow.New (window granularity : Int) :
    Except String (Option SlidingWindow) :=
  if window = 0 then .error ("window cannot be 0")
  else if granularity = 0 then .error ("granularity cannot be 0")
  else if window ≤ granularity ∨ Int.tmod window granularity ≠ 0 then
    .error ("window size has to be a multiplier of the granularity size")
  else if Int.tdiv window granularity < 0 then .ok none
  else .ok (some
    { window := window
      granularity := granularity
      samples := List.replicate (Int.tdiv window granularity).toNat 0
      counts := List.replicate (Int.tdiv window granularity).toNat 0
      pos := 0
      size := Int.tdiv window granularity })

/-- `Add` (src/slidingwindow.go:81-86): `samples[pos] += v; counts[pos]++`
under the write lock. -/
def SlidingWindow.Add (sw : SlidingWindow) (v : ℚ) : SlidingWindow :=
  { sw with
    samples := sw.samples.set sw.pos (sw.samples.getD sw.pos 0 + v)
    counts := sw.counts.set sw.pos (sw.counts.getD sw.pos 0 + 1) }

/-- One tick of `shifter` (src/slidingwindow.go:60-78): advance `pos`,
wrapping to 0 when it reaches `len(samples)`, then zero the bucket at
the new position.  `size` is not touched. -/
def SlidingWindow.tick (sw : SlidingWindow) : SlidingWindow :=
  let pos := if sw.samples.length ≤ sw.pos + 1 then 0 else sw.pos + 1
  { sw with
    pos := pos
    samples := sw.samples.set pos 0
    counts := sw.counts.set pos 0 }

/-- `Reset` (src/slidingwindow.go:99-108): `pos, size = 0, 0` and both
arrays zeroed (the source loop runs over the indices of `samples`; in
every state the source builds, `samples` and `counts` have equal
length). -/
def SlidingWindow.Reset (sw : SlidingWindow) : SlidingWindow :=
  { sw with
    pos := 0
    size := 0
    samples := List.replicate sw.samples.length 0
    counts := List.replicate sw.counts.length 0 }

/-- The summation loop of `Total` (src/slidingwindow.go:133-143): the
bucket index for iteration `i` is `pos - i`, shifted up by
`len(samples)` when negative. -/
def totalAux (samples : List ℚ) (counts : List Int) (pos : Nat) :
    Nat → ℚ × Int
  | 0 => (0, 0)
  | n+1 =>
    let acc := totalAux samples counts pos n
    let p : Int := (pos : Int) - (n : Int)
    let p := if p < 0 then p + (samples.length : Int) else p
    (acc.1 + samples.getD p.toNat 0, acc.2 + counts.getD p.toNat 0)

/-- `Total` (src/slidingwindow.go:120-146): clamp the lookback to the
configured window, take `int(window / granularity)` buckets but at most
`size`, and sum that many buckets walking backward from `pos`. -/
def SlidingWindow.Total (sw : SlidingWindow) (window : Int) : ℚ × Int :=
  let window := if window > sw.window then sw.window else window
  let sampleCount := Int.tdiv window sw.granularity
  let sampleCount := if sampleCount > sw.size then sw.size else sampleCount
  totalAux sw.samples sw.counts sw.pos sampleCount.toNat

/-- `Average` (src/slidingwindow.go:89-96): `Total`, then 0 when the
sample count is 0, else the binary64 quotient.  The operands of Go's
`float64` division are exact here (`total` is an exactly representable
sum in every fixture considered, and `float64(sampleCount)` is exact for
counts below 2^53), so the division result is the correctly rounded
binary64 image of the exact rational quotient. -/
def SlidingWindow.Average (sw : SlidingWindow) (window : Int) : ℚ :=
  let t := sw.Total window
  if t.2 = 0 then 0 else f64ofRat (t.1 / (t.2 : ℚ))

/-- The operations that can touch a constructed instance, for invariant
reasoning.  `Stop` only signals the shifter channel, and `Total` /
`Average` only read under the shared lock, so none of the three changes
the bucket state. -/
inductive Op where
  | add (v : ℚ)
  | tick
  | reset
  | total (lookback : Int)
  | average (lookback : Int)
  | stop
deriving DecidableEq, Repr

/-- Effect of one operation on the sequential state. -/
def SlidingWindow.step (sw : SlidingWindow) : Op → SlidingWindow
  | .add v => sw.Add v
  | .tick => sw.tick
  | .reset => sw.Reset
  | .total _ => sw
  | .average _ => sw
  | .stop => sw

/-- Run a sequence of operations. -/
def SlidingWindow.run (sw : SlidingWindow) (ops : List Op) : SlidingWindow :=
  ops.foldl SlidingWindow.step sw

/-- The fixture of TestTotal (src/slidingwindow_test.go). -/
def fixtureTotal : SlidingWindow :=
  { window := 10 * 10^9
    granularity := 10^9
    samples := [1, 2, 5, 0, 0, 0, 0, 0, 4, 0]
    counts := [1, 2, 2, 0, 0, 0, 0, 0, 4, 0]
    pos := 1
    size := 10 }

/-- The fixture of TestAverage (src/slidingwindow_test.go). -/
def fixtureAverage : SlidingWindow :=
  { window := 10 * 10^9
    granularity := 10^9
    samples := [20, 4, 5, 0, 0, 0, 0, 0, 4, 10]
    counts := [10, 2, 5, 0, 0, 0, 0, 0, 4, 2]
    pos := 1
    size := 10 }

/-- The state `New(10s, 1s)` constructs. -/
def fresh10s : SlidingWindow :=
  { window := 10 * 10^9
    granularity := 10^9
    samples := [0, 0, 0, 0, 0, 0, 0, 0, 0, 0]
    counts := [0, 0, 0, 0, 0, 0, 0, 0, 0, 0]
    pos := 0
    size := 10 }

lemma rnEven_of_lt_half (x : ℚ) (n : Int) (hn : ⌊x⌋ = n) (h : x - n < 1/2) :
    rnEven x = n := by
  unfold rnEven
  rw [hn, if_pos h]

lemma rnEven_of_gt_half (x : ℚ) (n : Int) (hn : ⌊x⌋ = n) (h : 1/2 < x - n) :
    rnEven x = n + 1 := by
  unfold rnEven
  rw [hn, if_neg (by linarith), if_pos h]

lemma f64ofRat_pos_eval (q : ℚ) (e m : Int)
    (hq : 0 < q) (hl : floorLog2 q = e)
    (hr : rnEven (q * scalePow (52 - e)) = m) :
    f64ofRat q = m * scalePow (e - 52) := by
  unfold f64ofRat
  rw [if_neg (ne_of_gt hq), if_pos hq, hl, hr]

lemma f64_two : f64ofRat 2 = 2 := by
  have hsp : scalePow (52 - 1) = 2^(51:Nat) := by
    norm_num [scalePow, show ((51:Int)).toNat = 51 from rfl]
  have hfl : ⌊(2 : ℚ) * 2^(51:Nat)⌋ = 4503599627370496 := by
    rw [Int.floor_eq_iff]
    constructor <;> norm_num
  have hr : rnEven ((2 : ℚ) * scalePow (52 - 1)) = 4503599627370496 := by
    rw [hsp, rnEven_of_lt_half _ _ hfl (by norm_num)]
  rw [f64ofRat_pos_eval 2 1 4503599627370496 (by norm_num)
    (by norm_num [floorLog2, expUp]) hr]
  norm_num [scalePow, show ((51:Int)).toNat = 51 from rfl]

lemma f64_19_9 : f64ofRat (19/9) = 4753799606668857 / 2251799813685248 := by
  have hsp : scalePow (52 - 1) = 2^(51:Nat) := by
    norm_num [scalePow, show ((51:Int)).toNat = 51 from rfl]
  have hfl : ⌊(19/9 : ℚ) * 2^(51:Nat)⌋ = 4753799606668856 := by
    rw [Int.floor_eq_iff]
    constructor <;> norm_num
  have hr : rnEven ((19/9 : ℚ) * scalePow (52 - 1)) = 4753799606668857 := by
    rw [hsp, rnEven_of_gt_half _ _ hfl (by norm_num)]
    norm_num
  rw [f64ofRat_pos_eval (19/9) 1 4753799606668857 (by norm_num)
    (by norm_num [floorLog2, expUp]) hr]
  norm_num [scalePow, show ((51:Int)).toNat = 51 from rfl]

lemma f64_avg4_lit :
    f64ofRat (21111111111111111 / 10^16) = 4753799606668857 / 2251799813685248 := by
  have hsp : scalePow (52 - 1) = 2^(51:Nat) := by
    norm_num [scalePow, show ((51:Int)).toNat = 51 from rfl]
  have hfl : ⌊(21111111111111111 / 10^16 : ℚ) * 2^(51:Nat)⌋ = 4753799606668856 := by
    rw [Int.floor_eq_iff]
    constructor <;> norm_num
  have hr : rnEven ((21111111111111111 / 10^16 : ℚ) * scalePow (52 - 1)) =
      4753799606668857 := by
    rw [hsp, rnEven_of_gt_half _ _ hfl (by norm_num)]
    norm_num
  rw [f64ofRat_pos_eval (21111111111111111 / 10^16) 1 4753799606668857 (by norm_num)
    (by norm_num [floorLog2, expUp]) hr]
  norm_num [scalePow, show ((51:Int)).toNat = 51 from rfl]

lemma f64_43_23 : f64ofRat (43/23) = 8419773216388319 / 4503599627370496 := by
  have hsp : scalePow (52 - 0) = 2^(52:Nat) := by
    norm_num [scalePow, show ((52:Int)).toNat = 52 from rfl]
  have hfl : ⌊(43/23 : ℚ) * 2^(52:Nat)⌋ = 8419773216388318 := by
    rw [Int.floor_eq_iff]
    constructor <;> norm_num
  have hr : rnEven ((43/23 : ℚ) * scalePow (52 - 0)) = 8419773216388319 := by
    rw [hsp, rnEven_of_gt_half _ _ hfl (by norm_num)]
    norm_num
  rw [f64ofRat_pos_eval (43/23) 0 8419773216388319 (by norm_num)
    (by norm_num [floorLog2, expUp]) hr]
  norm_num [scalePow, show ((52:Int)).toNat = 52 from rfl]

lemma f64_avg10_lit :
    f64ofRat (18695652173913044 / 10^16) = 8419773216388319 / 4503599627370496 := by
  have hsp : scalePow (52 - 0) = 2^(52:Nat) := by
    norm_num [scalePow, show ((52:Int)).toNat = 52 from rfl]
  have hfl : ⌊(18695652173913044 / 10^16 : ℚ) * 2^(52:Nat)⌋ = 8419773216388318 := by
    rw [Int.floor_eq_iff]
    constructor <;> norm_num
  have hr : rnEven ((18695652173913044 / 10^16 : ℚ) * scalePow (52 - 0)) =
      8419773216388319 := by
    rw [hsp, rnEven_of_gt_half _ _ hfl (by norm_num)]
    norm_num
  rw [f64ofRat_pos_eval (18695652173913044 / 10^16) 0 8419773216388319 (by norm_num)
    (by norm_num [floorLog2, expUp]) hr]
  norm_num [scalePow, show ((52:Int)).toNat = 52 from rfl]

lemma average_eval (sw : SlidingWindow) (d : Int) (t : ℚ) (c : Int)
    (h : sw.Total d = (t, c)) (hc : c ≠ 0) :
    sw.Average d = f64ofRat (t / (c : ℚ)) := by
  unfold SlidingWindow.Average
  rw [h]
  simp [hc]

lemma step_size_zero (sw : SlidingWindow) (op : Op) (h : sw.size = 0) :
    (sw.step op).size = 0 := by
  cases op <;>
    simp [SlidingWindow.step, SlidingWindow.Add, SlidingWindow.tick,
      SlidingWindow.Reset, h]

lemma run_size_zero (ops : List Op) :
    ∀ sw : SlidingWindow, sw.size = 0 → (sw.run ops).size = 0 := by
  induction ops with
  | nil => intro sw h; exact h
  | cons op ops ih =>
    intro sw h
    exact ih (sw.step op) (step_size_zero sw op h)

lemma clampToNat_zero (t : Int) : (if t > (0:Int) then (0:Int) else t).toNat = 0 := by
  split_ifs with h
  · rfl
  · exact Int.toNat_of_nonpos (by omega)

lemma total_of_size_zero (sw : SlidingWindow) (d : Int) (h : sw.size = 0) :
    sw.Total d = (0, 0) := by
  simp only [SlidingWindow.Total, h, clampToNat_zero]
  rfl

/-- C1 counterexample: on the instance built by `New(10s, 1s)`, after
`Add(10)` and `Add(20)` with no rotation tick, `Total(1s)` does not
return `(30, 1)` — the two adds both increment the current bucket's
count, so the returned sample count is 2, not 1. -/
theorem total_after_two_adds_ne_one_sample :
    SlidingWindow.New (10 * 10^9) (10^9) = .ok (some fresh10s) ∧
    ((fresh10s.Add 10).Add 20).Total (10^9) ≠ ((30 : ℚ), (1 : Int)) := by
  constructor
  · rfl
  · norm_num [SlidingWindow.Add, SlidingWindow.Total, totalAux, fresh10s,
      show Int.tdiv (10^9) (10^9) = 1 from rfl]

/-- C1 amended: on the instance built by `New(10s, 1s)`, after `Add(10)`
and `Add(20)` with no rotation tick, `Total(1s)` returns `(30, 2)`: a
total of 30 and a sample count of 2 (one per Add call). -/
theorem total_after_two_adds :
    SlidingWindow.New (10 * 10^9) (10^9) = .ok (some fresh10s) ∧
    ((fresh10s.Add 10).Add 20).Total (10^9) = ((30 : ℚ), (2 : Int)) := by
  constructor
  · rfl
  · norm_num [SlidingWindow.Add, SlidingWindow.Total, totalAux, fresh10s,
      show Int.tdiv (10^9) (10^9) = 1 from rfl]

/-- C2 counterexample: for the TestTotal fixture (capacity 10, cursor 1,
granularity 1s, values `[1,2,5,0,0,0,0,0,4,0]`, counts
`[1,2,2,0,0,0,0,0,4,0]`, retained 10), `Total(2s)` does not return
`(3, 4)`: the two buckets summed (indices 1 and 0) hold counts 2 and 1,
so the sample count is 3. -/
theorem total_fixture_ne_spec_counts :
    fixtureTotal.Total (2 * 10^9) ≠ ((3 : ℚ), (4 : Int)) := by
  norm_num [SlidingWindow.Total, totalAux, fixtureTotal,
    show Int.tdiv (2 * 10^9) (10^9) = 2 from rfl]

/-- C2 amended: for the TestTotal fixture, `Total` returns exactly
`Total(1s) = (2,2)`, `Total(2s) = (3,3)`, `Total(4s) = (7,7)`,
`Total(10s) = (12,9)` and `Total(20s) = (12,9)` (the lookback is clamped
to the window). -/
theorem total_fixture_eval :
    fixtureTotal.Total (10^9) = ((2 : ℚ), (2 : Int)) ∧
    fixtureTotal.Total (2 * 10^9) = ((3 : ℚ), (3 : Int)) ∧
    fixtureTotal.Total (4 * 10^9) = ((7 : ℚ), (7 : Int)) ∧
    fixtureTotal.Total (10 * 10^9) = ((12 : ℚ), (9 : Int)) ∧
    fixtureTotal.Total (20 * 10^9) = ((12 : ℚ), (9 : Int)) := by
  refine ⟨?_, ?_, ?_, ?_, ?_⟩ <;>
    norm_num [SlidingWindow.Total, totalAux, fixtureTotal,
      show Int.tdiv (10^9) (10^9) = 1 from rfl,
      show Int.tdiv (2 * 10^9) (10^9) = 2 from rfl,
      show Int.tdiv (4 * 10^9) (10^9) = 4 from rfl,
      show Int.tdiv (10 * 10^9) (10^9) = 10 from rfl,
      show ((2:Int)).toNat = 2 from rfl, show ((3:Int)).toNat = 3 from rfl,
      show ((4:Int)).toNat = 4 from rfl, show ((5:Int)).toNat = 5 from rfl,
      show ((6:Int)).toNat = 6 from rfl, show ((7:Int)).toNat = 7 from rfl,
      show ((8:Int)).toNat = 8 from rfl, show ((9:Int)).toNat = 9 from rfl]

/-- C3 counterexample: start from the populated TestTotal fixture, call
Reset, let 10 rotation ticks elapse (a full revolution of the capacity-10
ring, more than enough to cover every bucket), then Add(5).  The retained
count is still 0, and `Total` over the full window still returns `(0,0)`
even though bucket 0 now holds the added sample — rotation ticks do not
restore retained buckets after a Reset, so queries never again observe
data. -/
theorem reset_ticks_do_not_restore :
    ((fixtureTotal.Reset.run [Op.tick, Op.tick, Op.tick, Op.tick, Op.tick,
      Op.tick, Op.tick, Op.tick, Op.tick, Op.tick]).Add 5).size = 0 ∧
    ((fixtureTotal.Reset.run [Op.tick, Op.tick, Op.tick, Op.tick, Op.tick,
      Op.tick, Op.tick, Op.tick, Op.tick, Op.tick]).Add 5).samples.getD 0 0 = 5 ∧
    ((fixtureTotal.Reset.run [Op.tick, Op.tick, Op.tick, Op.tick, Op.tick,
      Op.tick, Op.tick, Op.tick, Op.tick, Op.tick]).Add 5).Total (10 * 10^9)
      = ((0 : ℚ), (0 : Int)) := by
  refine ⟨?_, ?_, ?_⟩ <;>
    norm_num [SlidingWindow.run, SlidingWindow.step, SlidingWindow.Reset,
      SlidingWindow.tick, SlidingWindow.Add, SlidingWindow.Total, totalAux,
      fixtureTotal, List.replicate,
      show Int.tdiv (10 * 10^9) (10^9) = 10 from rfl]

/-- C3 amended: after Reset, every Total query returns `(0, 0)` regardless
of lookback, and this persists permanently: no sequence of further
operations — rotation ticks included — ever changes the retained count
from 0, so rotation ticks do not restore retained buckets after a
Reset. -/
theorem reset_total_zero_forever (sw : SlidingWindow) (ops : List Op) (d : Int) :
    (sw.Reset.run ops).size = 0 ∧ (sw.Reset.run ops).Total d = (0, 0) := by
  have hz : (sw.Reset.run ops).size = 0 :=
    run_size_zero ops sw.Reset rfl
  exact ⟨hz, total_of_size_zero _ d hz⟩

/-- C4: for the TestAverage fixture (capacity 10, cursor 1, granularity
1s, values `[20,4,5,0,0,0,0,0,4,10]`, counts `[10,2,5,0,0,0,0,0,4,2]`,
retained 10), `Average` returns exactly the binary64 values 0, 2.0, 2.0,
2.1111111111111111, 1.8695652173913044 and 1.8695652173913044 for
lookbacks 0, 1s, 2s, 4s, 10s and 20s (the last clamped to the window);
the two non-terminating decimals are stated as `f64ofRat` of the decimal
literal, the binary64 value that literal denotes. -/
theorem average_fixture_eval :
    fixtureAverage.Average 0 = 0 ∧
    fixtureAverage.Average (10^9) = 2 ∧
    fixtureAverage.Average (2 * 10^9) = 2 ∧
    fixtureAverage.Average (4 * 10^9) = f64ofRat (21111111111111111 / 10^16) ∧
    fixtureAverage.Average (10 * 10^9) = f64ofRat (18695652173913044 / 10^16) ∧
    fixtureAverage.Average (20 * 10^9) = f64ofRat (18695652173913044 / 10^16) := by
  have hT0 : fixtureAverage.Total 0 = ((0 : ℚ), (0 : Int)) := by
    norm_num [SlidingWindow.Total, totalAux, fixtureAverage,
      show Int.tdiv 0 (10^9) = 0 from rfl]
  have hT1 : fixtureAverage.Total (10^9) = ((4 : ℚ), (2 : Int)) := by
    norm_num [SlidingWindow.Total, totalAux, fixtureAverage,
      show Int.tdiv (10^9) (10^9) = 1 from rfl]
  have hT2 : fixtureAverage.Total (2 * 10^9) = ((24 : ℚ), (12 : Int)) := by
    norm_num [SlidingWindow.Total, totalAux, fixtureAverage,
      show Int.tdiv (2 * 10^9) (10^9) = 2 from rfl]
  have hT4 : fixtureAverage.Total (4 * 10^9) = ((38 : ℚ), (18 : Int)) := by
    norm_num [SlidingWindow.Total, totalAux, fixtureAverage,
      show Int.tdiv (4 * 10^9) (10^9) = 4 from rfl,
      show ((8:Int)).toNat = 8 from rfl, show ((9:Int)).toNat = 9 from rfl]
  have hT10 : fixtureAverage.Total (10 * 10^9) = ((43 : ℚ), (23 : Int)) := by
    norm_num [SlidingWindow.Total, totalAux, fixtureAverage,
      show Int.tdiv (10 * 10^9) (10^9) = 10 from rfl,
      show ((2:Int)).toNat = 2 from rfl, show ((3:Int)).toNat = 3 from rfl,
      show ((4:Int)).toNat = 4 from rfl, show ((5:Int)).toNat = 5 from rfl,
      show ((6:Int)).toNat = 6 from rfl, show ((7:Int)).toNat = 7 from rfl,
      show ((8:Int)).toNat = 8 from rfl, show ((9:Int)).toNat = 9 from rfl]
  have hT20 : fixtureAverage.Total (20 * 10^9) = ((43 : ℚ), (23 : Int)) := by
    norm_num [SlidingWindow.Total, totalAux, fixtureAverage,
      show Int.tdiv (10 * 10^9) (10^9) = 10 from rfl,
      show ((2:Int)).toNat = 2 from rfl, show ((3:Int)).toNat = 3 from rfl,
      show ((4:Int)).toNat = 4 from rfl, show ((5:Int)).toNat = 5 from rfl,
      show ((6:Int)).toNat = 6 from rfl, show ((7:Int)).toNat = 7 from rfl,
      show ((8:Int)).toNat = 8 from rfl, show ((9:Int)).toNat = 9 from rfl]
  refine ⟨?_, ?_, ?_, ?_, ?_, ?_⟩
  · simp [SlidingWindow.Average, hT0]
  · rw [average_eval _ _ 4 2 hT1 (by norm_num),
      show ((4:ℚ) / ((2:Int) : ℚ)) = 2 by norm_num, f64_two]
  · rw [average_eval _ _ 24 12 hT2 (by norm_num),
      show ((24:ℚ) / ((12:Int) : ℚ)) = 2 by norm_num, f64_two]
  · rw [average_eval _ _ 38 18 hT4 (by norm_num),
      show ((38:ℚ) / ((18:Int) : ℚ)) = 19/9 by norm_num, f64_19_9, f64_avg4_lit]
  · rw [average_eval _ _ 43 23 hT10 (by norm_num),
      show ((43:ℚ) / ((23:Int) : ℚ)) = 43/23 by norm_num, f64_43_23, f64_avg10_lit]
  · rw [average_eval _ _ 43 23 hT20 (by norm_num),
      show ((43:ℚ) / ((23:Int) : ℚ)) = 43/23 by norm_num, f64_43_23, f64_avg10_lit]

/-- C5: construction fails with the corresponding error, checked in
order: window = 0 yields the InvalidWindow error ("window cannot be 0");
otherwise granularity = 0 yields the InvalidGranularity error
("granularity cannot be 0"); otherwise window ≤ granularity or
window mod granularity ≠ 0 yields the InvalidRatio error ("window size
has to be a multiplier of the granularity size"); in particular a window
equal to the granularity is rejected even though it divides evenly. -/
theorem new_validation_order (w g : Int) :
    (w = 0 → SlidingWindow.New w g = .error ("window cannot be 0")) ∧
    (w ≠ 0 → g = 0 → SlidingWindow.New w g = .error ("granularity cannot be 0")) ∧
    (w ≠ 0 → g ≠ 0 → (w ≤ g ∨ Int.tmod w g ≠ 0) → SlidingWindow.New w g =
      .error ("window size has to be a multiplier of the granularity size")) ∧
    (w ≠ 0 → SlidingWindow.New w w =
      .error ("window size has to be a multiplier of the granularity size")) := by
  refine ⟨?_, ?_, ?_, ?_⟩
  · intro h
    subst h
    rfl
  · intro h1 h2
    subst h2
    unfold SlidingWindow.New
    rw [if_neg h1, if_pos rfl]
  · intro h1 h2 h3
    unfold SlidingWindow.New
    rw [if_neg h1, if_neg h2, if_pos h3]
  · intro h1
    unfold SlidingWindow.New
    rw [if_neg h1, if_neg h1, if_pos (Or.inl (le_refl w))]

/-- C5 witness: the three rejections at concrete inputs, including the
window-equals-granularity case. -/
theorem new_validation_order_witness :
    SlidingWindow.New 0 (10^9) = .error ("window cannot be 0") ∧
    SlidingWindow.New (10^9) 0 = .error ("granularity cannot be 0") ∧
    SlidingWindow.New (10^9) (10^9) =
      .error ("window size has to be a multiplier of the granularity size") :=
  ⟨(new_validation_order 0 (10^9)).1 rfl,
   (new_validation_order (10^9) 0).2.1 (by norm_num) rfl,
   (new_validation_order (10^9) (10^9)).2.2.2 (by norm_num)⟩

/-- C6: for every pair (window, granularity) with granularity positive,
window a multiple of granularity and strictly greater, construction
succeeds and returns an instance with capacity = window/granularity
buckets, every bucket value and count zero, cursor 0, and retained =
capacity (the truncated quotient coincides with the exact quotient and
is positive). -/
theorem new_success (w g : Int) (hg : 0 < g) (hlt : g < w) (hdvd : g ∣ w) :
    SlidingWindow.New w g = .ok (some
      { window := w
        granularity := g
        samples := List.replicate (Int.tdiv w g).toNat 0
        counts := List.replicate (Int.tdiv w g).toNat 0
        pos := 0
        size := Int.tdiv w g }) ∧
    Int.tdiv w g = w / g ∧ 0 < Int.tdiv w g := by
  have hw0 : w ≠ 0 := by omega
  have hg0 : g ≠ 0 := by omega
  have hmod : Int.tmod w g = 0 := Int.tmod_eq_zero_of_dvd hdvd
  have hcond : ¬(w ≤ g ∨ Int.tmod w g ≠ 0) := by
    simp only [hmod]
    omega
  have heq : Int.tdiv w g = w / g := Int.tdiv_eq_ediv (by omega) (by omega)
  have hpos : 0 < Int.tdiv w g := by
    rw [heq, Int.lt_ediv_iff_mul_lt hg hdvd, zero_mul]
    exact lt_trans hg hlt
  refine ⟨?_, heq, hpos⟩
  unfold SlidingWindow.New
  rw [if_neg hw0, if_neg hg0, if_neg hcond, if_neg (by omega)]

/-- C6 witness: construction at window 10s, granularity 1s. -/
theorem new_success_witness :
    SlidingWindow.New (10 * 10^9) (10^9) = .ok (some
      { window := 10 * 10^9
        granularity := 10^9
        samples := List.replicate (Int.tdiv (10 * 10^9) (10^9)).toNat 0
        counts := List.replicate (Int.tdiv (10 * 10^9) (10^9)).toNat 0
        pos := 0
        size := Int.tdiv (10 * 10^9) (10^9) }) :=
  (new_success (10 * 10^9) (10^9) (by norm_num) (by norm_num)
    ⟨10, by norm_num⟩).1

/-- C7: a rotation tick advances the cursor by exactly one position
modulo capacity and zeroes the value and count of the newly current
bucket, leaving every other bucket, the retained count, the window and
the granularity unchanged. -/
theorem tick_rotates (sw : SlidingWindow) (hpos : sw.pos < sw.samples.length)
    (hlen : sw.counts.length = sw.samples.length) :
    sw.tick.pos = (sw.pos + 1) % sw.samples.length ∧
    sw.tick.samples.getD sw.tick.pos 0 = 0 ∧
    sw.tick.counts.getD sw.tick.pos 0 = 0 ∧
    (∀ i, i ≠ sw.tick.pos → sw.tick.samples.getD i 0 = sw.samples.getD i 0) ∧
    (∀ i, i ≠ sw.tick.pos → sw.tick.counts.getD i 0 = sw.counts.getD i 0) ∧
    sw.tick.size = sw.size ∧ sw.tick.window = sw.window ∧
    sw.tick.granularity = sw.granularity := by
  have h0 : 0 < sw.samples.length := Nat.lt_of_le_of_lt (Nat.zero_le _) hpos
  have htp : sw.tick.pos
      = (if sw.samples.length ≤ sw.pos + 1 then 0 else sw.pos + 1) := rfl
  have hts : sw.tick.samples
      = sw.samples.set (if sw.samples.length ≤ sw.pos + 1 then 0 else sw.pos + 1) 0 := rfl
  have htc : sw.tick.counts
      = sw.counts.set (if sw.samples.length ≤ sw.pos + 1 then 0 else sw.pos + 1) 0 := rfl
  set np := if sw.samples.length ≤ sw.pos + 1 then 0 else sw.pos + 1 with hnp
  have hnp_lt : np < sw.samples.length := by
    rw [hnp]
    split_ifs with h
    · exact h0
    · omega
  have hnp_lt2 : np < sw.counts.length := by
    rw [hlen]
    exact hnp_lt
  refine ⟨?_, ?_, ?_, ?_, ?_, rfl, rfl, rfl⟩
  · rw [htp, hnp]
    split_ifs with h
    · have h2 : sw.pos + 1 = sw.samples.length := by omega
      rw [h2, Nat.mod_self]
    · rw [Nat.mod_eq_of_lt (by omega)]
  · rw [hts, htp, List.getD_eq_getElem?_getD, List.getElem?_set_self hnp_lt]
    rfl
  · rw [htc, htp, List.getD_eq_getElem?_getD, List.getElem?_set_self hnp_lt2]
    rfl
  · intro i hi
    rw [htp] at hi
    rw [hts, List.getD_eq_getElem?_getD, List.getElem?_set_ne (by omega),
      ← List.getD_eq_getElem?_getD]
  · intro i hi
    rw [htp] at hi
    rw [htc, List.getD_eq_getElem?_getD, List.getElem?_set_ne (by omega),
      ← List.getD_eq_getElem?_getD]

/-- C7 witness: one tick on the TestTotal fixture (cursor 1 of 10). -/
theorem tick_rotates_witness :
    fixtureTotal.tick.pos = (fixtureTotal.pos + 1) % fixtureTotal.samples.length ∧
    fixtureTotal.tick.size = fixtureTotal.size :=
  ⟨(tick_rotates fixtureTotal (by decide) (by decide)).1,
   (tick_rotates fixtureTotal (by decide) (by decide)).2.2.2.2.2.1⟩

/-- C8: no operation ever increases the retained-bucket count (`size`):
every step keeps it bounded by its previous value and nonnegative; Add
and a rotation tick leave it unchanged; Reset sets it to 0; Total,
Average and Stop do not change the state at all; construction sets it to
the capacity `window/granularity`; and once Reset has run, `size`
remains 0 across every subsequently reachable state. -/
theorem size_never_increases (sw : SlidingWindow) (op : Op) (v : ℚ) (d : Int)
    (h : 0 ≤ sw.size) (ops : List Op) :
    (sw.step op).size ≤ sw.size ∧ 0 ≤ (sw.step op).size ∧
    (sw.Add v).size = sw.size ∧ sw.tick.size = sw.size ∧ sw.Reset.size = 0 ∧
    sw.step (Op.total d) = sw ∧ sw.step (Op.average d) = sw ∧
    sw.step Op.stop = sw ∧
    (∀ w g sw2, SlidingWindow.New w g = .ok (some sw2) →
      sw2.size = Int.tdiv w g) ∧
    (sw.Reset.run ops).size = 0 := by
  refine ⟨?_, ?_, rfl, rfl, rfl, rfl, rfl, rfl, ?_, ?_⟩
  · cases op <;>
      simp [SlidingWindow.step, SlidingWindow.Add, SlidingWindow.tick,
        SlidingWindow.Reset]
    omega
  · cases op <;>
      simp [SlidingWindow.step, SlidingWindow.Add, SlidingWindow.tick,
        SlidingWindow.Reset] <;>
      omega
  · intro w g sw2 hnew
    unfold SlidingWindow.New at hnew
    split_ifs at hnew <;>
      first
        | exact Except.noConfusion hnew
        | (simp only [Except.ok.injEq] at hnew; exact Option.noConfusion hnew)
        | (simp only [Except.ok.injEq, Option.some.injEq] at hnew; rw [← hnew])
  · exact run_size_zero ops sw.Reset rfl

/-- C8 witness: at the TestTotal fixture, a Reset step does not increase
the retained count, and after a Reset every later state keeps it 0. -/
theorem size_never_increases_witness :
    (fixtureTotal.step Op.reset).size ≤ fixtureTotal.size ∧
    (fixtureTotal.Reset.run [Op.tick, Op.add 3, Op.stop]).size = 0 :=
  ⟨(size_never_increases fixtureTotal Op.reset 0 0 (by decide)
      [Op.tick, Op.add 3, Op.stop]).1,
   (size_never_increases fixtureTotal Op.reset 0 0 (by decide)
      [Op.tick, Op.add 3, Op.stop]).2.2.2.2.2.2.2.2.2⟩

/-- C9: the inputs window = 2s, granularity = -1s pass all three
validation checks (the window is nonzero, the granularity is nonzero,
the window is not ≤ the granularity and the truncated remainder is 0),
yet the bucket length `window/granularity` that New then allocates is
the negative number -2 — in Go, `make` panics there instead of an error
being returned (modelled as `Except.ok none`). -/
theorem new_negative_granularity_panics :
    SlidingWindow.New (2 * 10^9) (-(10^9)) = .ok none ∧
    (2 * 10^9 : Int) ≠ 0 ∧ (-(10^9) : Int) ≠ 0 ∧
    ¬ ((2 * 10^9 : Int) ≤ -(10^9)) ∧
    Int.tmod (2 * 10^9) (-(10^9)) = 0 ∧
    Int.tdiv (2 * 10^9) (-(10^9)) = -2 :=
  ⟨rfl, by decide, by decide, by decide, by decide, by decide⟩

lemma clampToNat_zero2 (t s : Int) (ht : t ≤ 0) :
    (if t > s then s else t).toNat = 0 := by
  split_ifs with h
  · exact Int.toNat_of_nonpos (by omega)
  · exact Int.toNat_of_nonpos ht

/-- C10: for every negative lookback and every instance state with
positive granularity (as every constructed instance has), Total returns
`(0, 0)` and Average returns 0, just as for a zero lookback. -/
theorem total_negative_lookback (sw : SlidingWindow) (d : Int) (hd : d < 0)
    (hg : 0 < sw.granularity) :
    sw.Total d = (0, 0) ∧ sw.Average d = 0 := by
  have hsc : Int.tdiv (if d > sw.window then sw.window else d) sw.granularity ≤ 0 := by
    have hw : (if d > sw.window then sw.window else d) < 0 := by
      split_ifs with h <;> omega
    have hnn : 0 ≤ Int.tdiv (-(if d > sw.window then sw.window else d)) sw.granularity :=
      Int.tdiv_nonneg (by omega) (le_of_lt hg)
    have heq : Int.tdiv (-(if d > sw.window then sw.window else d)) sw.granularity
        = -(Int.tdiv (if d > sw.window then sw.window else d) sw.granularity) :=
      Int.neg_tdiv _ _
    omega
  have htot : sw.Total d = (0, 0) := by
    simp only [SlidingWindow.Total]
    rw [clampToNat_zero2 _ _ hsc]
    rfl
  have havg : sw.Average d = 0 := by
    simp [SlidingWindow.Average, htot]
  exact ⟨htot, havg⟩

/-- C10 witness: a lookback of -1s on the TestTotal fixture. -/
theorem total_negative_lookback_witness :
    fixtureTotal.Total (-(10^9)) = (0, 0) ∧
    fixtureTotal.Average (-(10^9)) = 0 :=
  total_negative_lookback fixtureTotal (-(10^9)) (by decide) (by decide)
